import Mathlib

/-
Verification of the Rocket.Chat Errbot backend (src/rocketchat/backends/rocketchat.py)
against its natural-language specification.

The Python source is shallowly embedded: configuration lookup and boolean parsing
(`_get_config`, `_get_bool_config`), the user identifier class (`RocketChatUser`,
`build_identifier`), the inbound message filter (`_meteor_changed_callback`),
the outbound send path (`send`, `create_reply_msg`, `send_message`,
`send_rocketchat_message`), the constructor's required-setting checks
(`__init__`), and the control loops (`serve_once`, `serve_forever`, the
heartbeat loop) modelled as trace-producing functions.
-/

/-! ## Python value model for configuration

Config values reaching `_get_config` are environment-variable strings or config
object attributes (strings, booleans, ints, bytes, or None in the shipped
`config.py`). Python truthiness and `str()` are modelled for these shapes. -/

/-- A Python value as it can appear as a configuration value. -/
inductive PyValue : Type where
  | vStr (s : String)
  | vBool (b : Bool)
  | vInt (n : Int)
  | vBytes (bs : List Nat)
  | vNone
deriving DecidableEq

/-- Python truthiness (`bool(x)`) for the modelled value shapes. -/
def pyTruthy : PyValue → Bool
  | .vStr s => !(s == "")
  | .vBool b => b
  | .vInt n => !(n == 0)
  | .vBytes bs => !bs.isEmpty
  | .vNone => false

/-- Python `str(x)` for the modelled value shapes. `str` of a bytes object is
its `b'...'` repr; modelled here for printable ASCII content, which is enough
because every byte repr starts with `b` and a quote and therefore never equals
`0`, `false` or `no` in the boolean parser below. -/
def pyStr : PyValue → String
  | .vStr s => s
  | .vBool true => "True"
  | .vBool false => "False"
  | .vInt n => toString n
  | .vBytes bs => "b" ++ "'" ++ String.mk (bs.map Char.ofNat) ++ "'"
  | .vNone => "None"

/-- The configuration surface seen by `_get_config`: the process environment
(`os.environ`, values always strings) and the optional config object
(`ROCKETCHAT_CONFIG`) whose attribute lookup may miss (`getattr` default). -/
structure ConfigSource : Type where
  env : String → Option String
  obj : Option (String → Option PyValue)

/-- `RocketChat._get_config` (rocketchat.py lines 460-491): env variable
`ROCKETCHAT_<key>` takes precedence; otherwise the config object's attribute;
otherwise the default. -/
def get_config (src : ConfigSource) (key : String) (default : PyValue) : PyValue :=
  match src.env ("ROCKETCHAT_" ++ key) with
  | some s => PyValue.vStr s
  | none =>
    match src.obj with
    | none => default
    | some getAttr => (getAttr key).getD default

/-- Python `s.lower()`, character-wise ASCII lowering (`Char.toLower` maps
`A`-`Z` to `a`-`z` and leaves everything else unchanged, matching Python on
ASCII input, which is all the boolean parser compares against). -/
def pyLower (s : String) : String :=
  String.mk (s.data.map Char.toLower)

/-- `RocketChat._get_bool_config` (rocketchat.py lines 493-521): a falsy value
(False, 0, None, empty string) is False; otherwise `str(value).lower()` must
not be one of '0', 'false', 'no'. -/
def get_bool_config (src : ConfigSource) (key : String) (default : PyValue) : Bool :=
  if pyTruthy (get_config src key default) then
    !((["0", "false", "no"] : List String).contains (pyLower (pyStr (get_config src key default))))
  else
    false

/-- A config source consisting of a single environment variable and no config
object. -/
def envOnlySrc (key val : String) : ConfigSource :=
  ⟨fun name => if name = "ROCKETCHAT_" ++ key then some val else none, none⟩

/-- A config source with empty environment and no config object: every lookup
falls through to the default. -/
def emptySrc : ConfigSource :=
  ⟨fun _ => none, none⟩

/-- A config source with empty environment and a config object holding a single
attribute. -/
def objOnlySrc (key : String) (val : PyValue) : ConfigSource :=
  ⟨fun _ => none, some (fun name => if name = key then some val else none)⟩

/-! ## RocketChatUser -/

/-- `RocketChatUser` (rocketchat.py lines 185-266): canonical name, nickname and
full name. The `client` attribute is unused by the backend and omitted. -/
structure RocketChatUser : Type where
  person : String
  nick : String
  fullname : String
deriving DecidableEq

/-- Python `a or b` for an optional string `a`: `b` when `a` is None or empty
(falsy), else `a`. Used by the `RocketChatUser` constructor defaults. -/
def pyOrStr (a : Option String) (b : String) : String :=
  match a with
  | none => b
  | some s => if s = "" then b else s

/-- `RocketChatUser.__init__` (rocketchat.py lines 190-214): nickname and full
name each default to the canonical name via `nick or self._person`. -/
def mkRocketChatUser (person : String) (nick fullname : Option String) : RocketChatUser :=
  { person := person
    nick := pyOrStr nick person
    fullname := pyOrStr fullname person }

/-- `RocketChatUser.__str__` (rocketchat.py lines 259-266): the user name. -/
def RocketChatUser.str (u : RocketChatUser) : String :=
  u.person

/-- `RocketChat.build_identifier` (rocketchat.py lines 590-599). -/
def build_identifier (username : String) : RocketChatUser :=
  mkRocketChatUser username none none

/-! ## Messages and the inbound filter -/

/-- A raw Rocket.Chat message-info record as delivered in a `changed` event's
`args` list. `msg` models `msg_info.get('msg', None)` (absent or None collapse
to `none`); `username` models `msg_info['u']['username']` and `rid` models
`msg_info['rid']`, both required fields of a well-formed record (a missing one
raises `KeyError` in the source, which the spec calls a defect to surface). -/
structure MsgInfo : Type where
  msg : Option String
  username : String
  rid : String
deriving DecidableEq

/-- An errbot `Message` as built by this backend: body, sender, recipient and
the two extras keys the backend uses (`msg_info` at 2QTGO, `orig_msg` at
5QXGV/3YRCT). -/
inductive BMessage : Type where
  | mk (body : String) (frm : RocketChatUser) (toU : RocketChatUser)
      (extras_msg_info : Option MsgInfo) (extras_orig_msg : Option BMessage)

/-- Message body. -/
def BMessage.body : BMessage → String
  | .mk b _ _ _ _ => b

/-- Message sender. -/
def BMessage.frm : BMessage → RocketChatUser
  | .mk _ f _ _ _ => f

/-- Message recipient (the `to` argument of `Message`). -/
def BMessage.toU : BMessage → RocketChatUser
  | .mk _ _ t _ _ => t

/-- The `msg_info` extras entry, if present. -/
def BMessage.extras_msg_info : BMessage → Option MsgInfo
  | .mk _ _ _ mi _ => mi

/-- The `orig_msg` extras entry, if present. -/
def BMessage.extras_orig_msg : BMessage → Option BMessage
  | .mk _ _ _ _ om => om

/-- `RocketChat._meteor_changed_callback` (rocketchat.py lines 1014-1078) as the
list of messages dispatched to `callback_message`. Only the
`stream-room-messages` collection is handled; `fields.get('args')` must be a
list (`none` models an absent or non-list value); each record whose `msg` is
not None and whose sender username differs from the bot's login username is
dispatched exactly once. -/
def meteor_changed_callback (login_username : String) (bot_identifier : RocketChatUser)
    (collection : String) (args : Option (List MsgInfo)) : List BMessage :=
  if collection = "stream-room-messages" then
    match args with
    | some msgs =>
      msgs.filterMap (fun msg_info =>
        match msg_info.msg with
        | none => none
        | some m =>
          if msg_info.username ≠ login_username then
            some (BMessage.mk m (build_identifier msg_info.username) bot_identifier
              (some msg_info) none)
          else
            none)
    | none => []
  else
    []

/-! ## Outbound send path -/

/-- A `MeteorClient.call` parameter shape used by this backend: the
`createDirectMessage` call takes `[identifier.person]`, the `sendMessage` call
takes `{'rid': ..., 'msg': ...}`. -/
inductive CallParams : Type where
  | personList (person : String)
  | msgParams (rid : String) (msg : String)
deriving DecidableEq

/-- One transport method call (`self._meteor_client.call(method, params, ...)`). -/
structure MethodCall : Type where
  method : String
  params : CallParams
deriving DecidableEq

/-- `RocketChat.send_rocketchat_message` (rocketchat.py lines 1202-1219) for the
plain-text params dict: a single `sendMessage` transport call. -/
def send_rocketchat_message (rid msg : String) : List MethodCall :=
  [⟨"sendMessage", CallParams.msgParams rid msg⟩]

/-- `RocketChat.send_message` (rocketchat.py lines 1275-1308): reads
`mess.extras['orig_msg'].extras['msg_info']['rid']` and issues the
`sendMessage` call; a missing extras key is a `KeyError`. The
`super().send_message` plugin dispatch performs no transport call and is
omitted. -/
def send_message (mess : BMessage) : Except String (List MethodCall) :=
  match mess.extras_orig_msg with
  | none => Except.error "KeyError: orig_msg"
  | some orig =>
    match orig.extras_msg_info with
    | none => Except.error "KeyError: msg_info"
    | some mi => Except.ok (send_rocketchat_message mi.rid mess.body)

/-- Modelled from the spec: errbot's `split_and_send_message` (the hosting
framework, an external collaborator consumed as an interface) dispatches the
message to the backend's `send_message`, issuing a single transport method
call carrying the room id and body for an unsplit body. -/
def split_and_send_message (mess : BMessage) : Except String (List MethodCall) :=
  send_message mess

/-- The `identifier` argument of `RocketChat.send`: either a genuine errbot
`Identifier` instance (this backend only ever builds user identifiers) or an
arbitrary non-Identifier value with its `repr` string. -/
inductive SendArg : Type where
  | ident (u : RocketChatUser)
  | notIdentifier (reprStr : String)
deriving DecidableEq

/-- `RocketChat.create_reply_msg`'s synchronous part (rocketchat.py lines
1385-1389): the single `createDirectMessage` transport call; its callback is
deferred until the transport answers (see `query_user_callback`). -/
def create_reply_msg_call (identifier : RocketChatUser) : List MethodCall :=
  [⟨"createDirectMessage", CallParams.personList identifier.person⟩]

/-- `RocketChat.send` (rocketchat.py lines 1310-1372) as the list of transport
calls it issues synchronously together with its return value (`True` in the
no-reply branch, `None` otherwise). A non-Identifier argument raises
`ValueError` before any call is issued. With no `in_reply_to`, it issues only
the `createDirectMessage` resolution call and returns `True`. With a reply
context, it builds the outbound message (extras `orig_msg` at 3YRCT) and
dispatches it via `split_and_send_message`; the group-chat branch only affects
`Room` identifiers and calls the no-op `prefix_groupchat_reply`, leaving the
message unchanged. -/
def send (identifier : SendArg) (text : String) (in_reply_to : Option BMessage) :
    Except String (List MethodCall × Option Bool) :=
  match identifier with
  | .notIdentifier r =>
    Except.error ("Argument `identifier` is not Identifier instance: " ++ r)
  | .ident u =>
    match in_reply_to with
    | none => Except.ok (create_reply_msg_call u, some true)
    | some reply =>
      let msg_obj := BMessage.mk text reply.toU u none (some reply)
      (split_and_send_message msg_obj).map (fun calls => (calls, none))

/-- `query_user_callback` inside `RocketChat.create_reply_msg` (rocketchat.py
lines 1375-1383): invoked by the transport as `callback(error, result)`; it
synthesizes the reply context carrying `result` as the `msg_info` extras entry
and re-enters `send`. -/
def query_user_callback (bot identifier : RocketChatUser) (text : String)
    (result : MsgInfo) : Except String (List MethodCall × Option Bool) :=
  let in_reply_to := BMessage.mk text identifier bot (some result) none
  send (SendArg.ident identifier) text (some in_reply_to)

/-! ## Constructor required-setting checks -/

/-- The backend state established by the required-setting part of the
constructor: the three stored settings, with the password normalized to a byte
sequence. -/
structure InitOk : Type where
  server_uri : PyValue
  login_username : PyValue
  login_password : List Nat
deriving DecidableEq

/-- Python `bytes(s, 'utf-8')`: the UTF-8 bytes of a string. -/
def strToBytes (s : String) : List Nat :=
  s.toUTF8.toList.map (fun b => b.toNat)

/-- The required-setting portion of `RocketChat.__init__` (rocketchat.py lines
343-394): resolve `SERVER_URI`, `LOGIN_USERNAME` and `LOGIN_PASSWORD` through
`_get_config`; a None result raises `ValueError`; a non-bytes password is
converted with `bytes(pw, 'utf-8')` (which itself raises `TypeError` on a
non-string). The constructor performs no transport operation: the meteor
client is created only later, inside `serve_once`. -/
def rocketchat_init (src : ConfigSource) : Except String InitOk :=
  if get_config src "SERVER_URI" PyValue.vNone = PyValue.vNone then
    Except.error "Missing config `SERVER_URI`."
  else if get_config src "LOGIN_USERNAME" PyValue.vNone = PyValue.vNone then
    Except.error "Missing config `LOGIN_USERNAME`."
  else
    match get_config src "LOGIN_PASSWORD" PyValue.vNone with
    | PyValue.vNone => Except.error "Missing config `LOGIN_PASSWORD`."
    | PyValue.vBytes bs =>
      Except.ok ⟨get_config src "SERVER_URI" PyValue.vNone,
                 get_config src "LOGIN_USERNAME" PyValue.vNone, bs⟩
    | PyValue.vStr pw =>
      Except.ok ⟨get_config src "SERVER_URI" PyValue.vNone,
                 get_config src "LOGIN_USERNAME" PyValue.vNone, strToBytes pw⟩
    | PyValue.vBool _ => Except.error "TypeError: encoding without a string argument"
    | PyValue.vInt _ => Except.error "TypeError: encoding without a string argument"

/-! ## The meteor callback chain

The login/subscribe/closed callbacks run on the meteor client's thread and
mutate the two `threading.Event` signals plus the observable side effects
(`connect_callback`, online presence, reconnection-count reset). A requested
`close()` is delivered by the transport as a later `closed` event. -/

/-- The session-scoped state the callbacks act on. -/
structure CbState : Type where
  subscribing_done : Bool
  meteor_closed : Bool
  connect_cb_called : Bool
  presence_online : Bool
  reconnect_reset : Bool
  close_requested : Bool
deriving DecidableEq

/-- All signals unset, no side effect observed yet. -/
def initialCbState : CbState :=
  ⟨false, false, false, false, false, false⟩

/-- The callback events the transport can deliver to this backend's hooks. -/
inductive CbEvent : Type where
  | connectedCb
  | loginCb (error : Bool)
  | subscribeCb (error : Bool)
  | closedCb
deriving DecidableEq

/-- The state effect of each callback:
`_meteor_connected_callback` (lines 878-902) only initiates the asynchronous
login; `_meteor_login_callback` (lines 904-949) closes the client on error and
otherwise initiates the asynchronous subscribe; `_meteor_subscribe_callback`
(lines 951-1012) closes the client on error and on success calls
`connect_callback`, emits the online presence, resets the reconnection count
and sets the subscribing-done event (5MS7A); `_meteor_closed_callback` (lines
1134-1157) unconditionally sets the subscribing-done event and the closed
event (3DMYH). -/
def apply_cb : CbEvent → CbState → CbState
  | .connectedCb, s => s
  | .loginCb err, s => if err then { s with close_requested := true } else s
  | .subscribeCb err, s =>
    if err then
      { s with close_requested := true }
    else
      { s with connect_cb_called := true, presence_online := true,
               reconnect_reset := true, subscribing_done := true }
  | .closedCb, s => { s with subscribing_done := true, meteor_closed := true }

/-- The sequence of callbacks the transport delivers for one session, given
whether login and subscribe succeed: `connected`, then the login callback,
then (when login succeeded) the subscribe callback, and finally the single
`closed` event that every session eventually receives (either because a
failure path requested `close()` or because the connection ended). -/
def callback_chain (login_ok subscribe_ok : Bool) : List CbEvent :=
  [CbEvent.connectedCb, CbEvent.loginCb (!login_ok)] ++
    (if login_ok then [CbEvent.subscribeCb (!subscribe_ok)] else []) ++
    [CbEvent.closedCb]

/-- Run the callback chain for one session from the initial state. -/
def run_chain (login_ok subscribe_ok : Bool) : CbState :=
  (callback_chain login_ok subscribe_ok).foldl (fun s e => apply_cb e s) initialCbState

/-! ## serve_once as a trace of lifecycle actions -/

/-- The observable actions of one `serve_once` run. -/
inductive SEvent : Type where
  | hookCallbacks
  | clearEvents
  | connectAttempt
  | waitSubscribing
  | heartbeatRun
  | waitClosed
  | closeClient
  | unhookCallbacks
  | releaseHandle
  | offlinePresence
  | disconnectCb
deriving DecidableEq

/-- How the post-connect body of `serve_once` (the try block at lines 787-823)
ends: it completes, or an exception escapes one of its three stages (the
subscribing-done wait, the heartbeat loop, the closed wait). Login and
subscribe failures do not raise here: they close the transport and both waits
return normally. -/
inductive BodyOutcome : Type where
  | completes
  | raisesAtWaitSubscribing
  | raisesAtHeartbeat
  | raisesAtWaitClosed
deriving DecidableEq

/-- Whether the body outcome is an escaping exception. -/
def bodyRaises : BodyOutcome → Bool
  | .completes => false
  | _ => true

/-- The events of the body up to (and including) the stage where it stops. The
heartbeat loop only appears when heartbeat is enabled (`raisesAtHeartbeat` is
only reachable with heartbeat enabled). -/
def bodyTrace (heartbeat_enabled : Bool) : BodyOutcome → List SEvent
  | .completes =>
    SEvent.waitSubscribing ::
      ((if heartbeat_enabled then [SEvent.heartbeatRun] else []) ++ [SEvent.waitClosed])
  | .raisesAtWaitSubscribing => [SEvent.waitSubscribing]
  | .raisesAtHeartbeat => [SEvent.waitSubscribing, SEvent.heartbeatRun]
  | .raisesAtWaitClosed =>
    SEvent.waitSubscribing ::
      ((if heartbeat_enabled then [SEvent.heartbeatRun] else []) ++ [SEvent.waitClosed])

/-- `RocketChat.serve_once` (rocketchat.py lines 676-876) as the trace of its
lifecycle actions paired with whether it re-raises. Hook the seven callbacks
and clear both events; attempt `connect()`. If connect raises (lines 756-780):
unhook, release the handle, clear the events and re-raise — without the
offline presence or disconnect notifications. Otherwise run the body; if the
body raises (lines 825-838): request `close()` and wait for the closed event;
in every post-connect path the `finally` (lines 840-873) unhooks, releases the
handle, emits the offline presence, invokes `disconnect_callback` and clears
both events. -/
def serve_once (connect_raises heartbeat_enabled : Bool) (outcome : BodyOutcome) :
    List SEvent × Bool :=
  let pre := [SEvent.hookCallbacks, SEvent.clearEvents, SEvent.connectAttempt]
  if connect_raises then
    (pre ++ [SEvent.unhookCallbacks, SEvent.releaseHandle, SEvent.clearEvents], true)
  else
    let body := bodyTrace heartbeat_enabled outcome
    let handler := if bodyRaises outcome then [SEvent.closeClient, SEvent.waitClosed] else []
    let cleanup := [SEvent.unhookCallbacks, SEvent.releaseHandle, SEvent.offlinePresence,
                    SEvent.disconnectCb, SEvent.clearEvents]
    (pre ++ body ++ handler ++ cleanup, bodyRaises outcome)

/-! ## serve_forever -/

/-- How one `serve_once` attempt ends, as observed by `serve_forever`: a normal
return, an exception (caught by `except Exception`), or a `KeyboardInterrupt`
(not an `Exception` subclass, so it escapes the inner handler and is absorbed
by the outer `except KeyboardInterrupt`). -/
inductive RunOutcome : Type where
  | normal
  | raisesError
  | keyboardInterrupt
deriving DecidableEq

/-- The observable actions of `serve_forever`. -/
inductive SFEvent : Type where
  | attempt (n : Nat)
  | logFailure
  | sleepReconnect
  | shutdownCall
deriving DecidableEq

/-- Whether an event is a `serve_once` attempt. -/
def SFEvent.isAttempt : SFEvent → Bool
  | .attempt _ => true
  | _ => false

/-- The `while True` loop of `serve_forever` (rocketchat.py lines 622-661),
fuel-bounded since the loop can run forever with reconnect enabled. Each
iteration attempts `serve_once`; an exception is logged; with reconnect
enabled the loop sleeps and continues, otherwise it breaks after the single
attempt; a `KeyboardInterrupt` ends the loop without being treated as an
error. -/
def serve_forever_loop (reconnect_enabled : Bool) (outcomes : Nat → RunOutcome) :
    Nat → Nat → Option (List SFEvent)
  | _, 0 => none
  | i, fuel + 1 =>
    match outcomes i with
    | .keyboardInterrupt => some [SFEvent.attempt i]
    | .normal =>
      if reconnect_enabled then
        (serve_forever_loop reconnect_enabled outcomes (i + 1) fuel).map
          (fun t => SFEvent.attempt i :: SFEvent.sleepReconnect :: t)
      else
        some [SFEvent.attempt i]
    | .raisesError =>
      if reconnect_enabled then
        (serve_forever_loop reconnect_enabled outcomes (i + 1) fuel).map
          (fun t => SFEvent.attempt i :: SFEvent.logFailure :: SFEvent.sleepReconnect :: t)
      else
        some [SFEvent.attempt i, SFEvent.logFailure]

/-- `RocketChat.serve_forever` (rocketchat.py lines 601-674): reads the
reconnect flag via `_get_bool_config` (default True), runs the loop, and the
`finally` always calls `shutdown()` on exit for any reason. -/
def serve_forever (src : ConfigSource) (outcomes : Nat → RunOutcome) (fuel : Nat) :
    Option (List SFEvent) :=
  (serve_forever_loop (get_bool_config src "RECONNECT_ENABLED" (PyValue.vBool true))
      outcomes 0 fuel).map
    (fun t => t ++ [SFEvent.shutdownCall])

/-! ## The heartbeat loop -/

/-- Observable actions of the heartbeat loop at 65ZNO: each iteration polls the
client's `connected` flag; while it is true the heartbeat callback is invoked
and then the loop sleeps for the interval. -/
inductive HbEvent : Type where
  | poll (connected : Bool)
  | invoke
  | sleepTick
deriving DecidableEq

/-- Whether an event is a heartbeat invocation. -/
def HbEvent.isInvoke : HbEvent → Bool
  | .invoke => true
  | _ => false

/-- Whether an event observed the connected flag as true. -/
def HbEvent.isPollTrue : HbEvent → Bool
  | .poll true => true
  | _ => false

/-- The `while self._meteor_client.connected` loop of `serve_once` (rocketchat.py
lines 811-818), fuel-bounded; `connected k` is the flag's value at the k-th
poll. -/
def heartbeat_loop (connected : Nat → Bool) : Nat → Nat → Option (List HbEvent)
  | _, 0 => none
  | k, fuel + 1 =>
    if connected k then
      (heartbeat_loop connected (k + 1) fuel).map
        (fun t => HbEvent.poll true :: HbEvent.invoke :: HbEvent.sleepTick :: t)
    else
      some [HbEvent.poll false]

/-! ## Claim theorems -/

/-- C9: a `RocketChatUser` built from a canonical name with nickname and full
name absent (None or empty) defaults both to the canonical name, and the
user's string form equals the canonical name. -/
theorem c9_user_defaults (p : String) (n f : Option String) :
    (mkRocketChatUser p none none).nick = p ∧
    (mkRocketChatUser p none none).fullname = p ∧
    (mkRocketChatUser p (some "") (some "")).nick = p ∧
    (mkRocketChatUser p (some "") (some "")).fullname = p ∧
    (mkRocketChatUser p n f).person = p ∧
    RocketChatUser.str (mkRocketChatUser p n f) = p ∧
    RocketChatUser.str (build_identifier p) = p ∧
    (build_identifier p).nick = p ∧
    (build_identifier p).fullname = p := by
  refine ⟨rfl, rfl, ?_, ?_, rfl, rfl, rfl, rfl, rfl⟩ <;>
    simp [mkRocketChatUser, pyOrStr]

/-- C10: `send` with an argument that is not an Identifier instance raises a
`ValueError` carrying the formatted message, before issuing any transport call
or constructing any message. -/
theorem c10_send_rejects_non_identifier (r text : String) (reply : Option BMessage) :
    send (SendArg.notIdentifier r) text reply =
      Except.error ("Argument `identifier` is not Identifier instance: " ++ r) :=
  rfl

/-- C7: `send` with a valid identifier and no reply context synchronously
issues exactly one `createDirectMessage` resolution call and returns `True`;
the `sendMessage` call happens only from the resolution callback's re-entry
into `send`, and its room id is taken from the synthesized reply context's
`msg_info` record (the `result` the transport passed to the callback). -/
theorem c7_send_dm_resolution (bot u : RocketChatUser) (text : String) (result : MsgInfo) :
    send (SendArg.ident u) text none =
      Except.ok ([⟨"createDirectMessage", CallParams.personList u.person⟩], some true) ∧
    query_user_callback bot u text result =
      Except.ok ([⟨"sendMessage", CallParams.msgParams result.rid text⟩], none) :=
  ⟨rfl, rfl⟩

/-- C3: the boolean config parser returns False on any falsy resolved value
(absent, None, 0, empty string), and on a truthy resolved value it returns
True exactly when the lowercased string form is not one of '0', 'false', 'no';
in particular parse("no") = False, parse("0") = False, parse("FALSE") = False,
parse("yes") = True, and an absent value with default True parses to True. -/
theorem c3_bool_config (src : ConfigSource) (key : String) (d : PyValue) :
    (pyTruthy (get_config src key d) = false → get_bool_config src key d = false) ∧
    (pyTruthy (get_config src key d) = true →
      get_bool_config src key d =
        !((["0", "false", "no"] : List String).contains
          (pyLower (pyStr (get_config src key d))))) ∧
    get_bool_config (envOnlySrc "RECONNECT_ENABLED" "no") "RECONNECT_ENABLED" PyValue.vNone
      = false ∧
    get_bool_config (envOnlySrc "RECONNECT_ENABLED" "0") "RECONNECT_ENABLED" PyValue.vNone
      = false ∧
    get_bool_config (envOnlySrc "RECONNECT_ENABLED" "FALSE") "RECONNECT_ENABLED" PyValue.vNone
      = false ∧
    get_bool_config (envOnlySrc "RECONNECT_ENABLED" "yes") "RECONNECT_ENABLED" PyValue.vNone
      = true ∧
    get_bool_config emptySrc "RECONNECT_ENABLED" (PyValue.vBool true) = true ∧
    get_bool_config emptySrc "HEARTBEAT_ENABLED" PyValue.vNone = false ∧
    get_bool_config (objOnlySrc "HEARTBEAT_ENABLED" PyValue.vNone) "HEARTBEAT_ENABLED"
      PyValue.vNone = false ∧
    get_bool_config (objOnlySrc "HEARTBEAT_ENABLED" (PyValue.vInt 0)) "HEARTBEAT_ENABLED"
      PyValue.vNone = false ∧
    get_bool_config (envOnlySrc "HEARTBEAT_ENABLED" "") "HEARTBEAT_ENABLED" PyValue.vNone
      = false := by
  refine ⟨?_, ?_, by decide, by decide, by decide, by decide, by decide, by decide,
    by decide, by decide, by decide⟩
  · intro h
    simp [get_bool_config, h]
  · intro h
    simp [get_bool_config, h]

/-- Witness for C3: the truthy branch of the rule at the concrete input
"yes". -/
theorem c3_bool_config_witness :
    get_bool_config (envOnlySrc "RECONNECT_ENABLED" "yes") "RECONNECT_ENABLED" PyValue.vNone =
      !((["0", "false", "no"] : List String).contains
        (pyLower (pyStr (get_config (envOnlySrc "RECONNECT_ENABLED" "yes")
          "RECONNECT_ENABLED" PyValue.vNone)))) :=
  (c3_bool_config (envOnlySrc "RECONNECT_ENABLED" "yes") "RECONNECT_ENABLED"
    PyValue.vNone).2.1 (by decide)

/-- C2: for every combination of login success/failure and subscribe
success/failure, the subscribing-done signal is set by the end of the callback
chain (so the wait phase of `serve_once` can only be passed with it set); the
subscribe-success callback sets it, and the closed callback sets it (and the
closed signal) unconditionally from any state; in the all-success case it is
already set at the subscribe callback, before any closure. -/
theorem c2_subscription_settled (login_ok subscribe_ok : Bool) (s : CbState) :
    (run_chain login_ok subscribe_ok).subscribing_done = true ∧
    (run_chain login_ok subscribe_ok).meteor_closed = true ∧
    (apply_cb (CbEvent.subscribeCb false) s).subscribing_done = true ∧
    (apply_cb CbEvent.closedCb s).subscribing_done = true ∧
    (apply_cb CbEvent.closedCb s).meteor_closed = true ∧
    (((callback_chain true true).take 3).foldl (fun st e => apply_cb e st)
      initialCbState).subscribing_done = true := by
  refine ⟨?_, ?_, by simp [apply_cb], rfl, rfl, by decide⟩ <;>
    cases login_ok <;> cases subscribe_ok <;> decide

/-- In any completed heartbeat-loop trace, the number of heartbeat invocations
equals the number of polls that observed the connected flag true. -/
theorem heartbeat_count_aux (connected : Nat → Bool) :
    ∀ (fuel k : Nat) (t : List HbEvent), heartbeat_loop connected k fuel = some t →
      List.countP HbEvent.isInvoke t = List.countP HbEvent.isPollTrue t := by
  intro fuel
  induction fuel with
  | zero =>
    intro k t h
    simp [heartbeat_loop] at h
  | succ f ih =>
    intro k t h
    by_cases hc : connected k = true
    · rw [heartbeat_loop, if_pos hc, Option.map_eq_some'] at h
      obtain ⟨t1, h1, h2⟩ := h
      subst h2
      have := ih (k + 1) t1 h1
      simp [List.countP_cons, HbEvent.isInvoke, HbEvent.isPollTrue, this]
    · rw [heartbeat_loop, if_neg hc, Option.some_inj] at h
      subst h
      decide

/-- C5: the heartbeat callback is invoked exactly as many times as the
connected flag is observed true at the loop boundary (the flag is polled, the
callback runs, then the loop sleeps); with a flag that turns false after the
third tick the callback runs exactly 3 times. -/
theorem c5_heartbeat_count :
    (∀ (connected : Nat → Bool) (fuel k : Nat) (t : List HbEvent),
      heartbeat_loop connected k fuel = some t →
      List.countP HbEvent.isInvoke t = List.countP HbEvent.isPollTrue t) ∧
    heartbeat_loop (fun n => decide (n < 3)) 0 5 =
      some [HbEvent.poll true, HbEvent.invoke, HbEvent.sleepTick,
            HbEvent.poll true, HbEvent.invoke, HbEvent.sleepTick,
            HbEvent.poll true, HbEvent.invoke, HbEvent.sleepTick,
            HbEvent.poll false] ∧
    List.countP HbEvent.isInvoke
      [HbEvent.poll true, HbEvent.invoke, HbEvent.sleepTick,
       HbEvent.poll true, HbEvent.invoke, HbEvent.sleepTick,
       HbEvent.poll true, HbEvent.invoke, HbEvent.sleepTick,
       HbEvent.poll false] = 3 :=
  ⟨heartbeat_count_aux, by decide, by decide⟩

/-- Witness for C5: the counting part applied to the one-poll trace of an
immediately-disconnected client. -/
theorem c5_heartbeat_count_witness :
    List.countP HbEvent.isInvoke [HbEvent.poll false] =
      List.countP HbEvent.isPollTrue [HbEvent.poll false] :=
  c5_heartbeat_count.1 (fun _ => false) 1 0 [HbEvent.poll false] (by decide)

/-- C4: with the reconnect flag parsed false, `serve_forever` performs exactly
one `serve_once` attempt and returns, whether the attempt completes normally,
raises an exception (logged, not propagated), or is interrupted; `shutdown`
runs on exit in every case. -/
theorem c4_reconnect_disabled (src : ConfigSource) (outcomes : Nat → RunOutcome) (fuel : Nat)
    (h : get_bool_config src "RECONNECT_ENABLED" (PyValue.vBool true) = false) :
    ∃ t, serve_forever src outcomes (fuel + 1) = some (t ++ [SFEvent.shutdownCall]) ∧
      List.countP SFEvent.isAttempt t = 1 ∧
      (outcomes 0 = RunOutcome.raisesError → SFEvent.logFailure ∈ t) := by
  unfold serve_forever
  rw [h]
  cases ho : outcomes 0 with
  | normal =>
    refine ⟨[SFEvent.attempt 0], ?_, by decide, ?_⟩
    · rw [serve_forever_loop, ho]
      simp
    · intro hcontra
      exact RunOutcome.noConfusion hcontra
  | raisesError =>
    refine ⟨[SFEvent.attempt 0, SFEvent.logFailure], ?_, by decide, by simp⟩
    rw [serve_forever_loop, ho]
    simp
  | keyboardInterrupt =>
    refine ⟨[SFEvent.attempt 0], ?_, by decide, ?_⟩
    · rw [serve_forever_loop, ho]
      simp
    · intro hcontra
      exact RunOutcome.noConfusion hcontra

/-- Witness for C4: reconnect disabled through the env variable value "no" and
a failing attempt. -/
theorem c4_reconnect_disabled_witness :
    ∃ t, serve_forever (envOnlySrc "RECONNECT_ENABLED" "no")
        (fun _ => RunOutcome.raisesError) 1 = some (t ++ [SFEvent.shutdownCall]) ∧
      List.countP SFEvent.isAttempt t = 1 ∧
      ((fun _ => RunOutcome.raisesError) 0 = RunOutcome.raisesError →
        SFEvent.logFailure ∈ t) :=
  c4_reconnect_disabled (envOnlySrc "RECONNECT_ENABLED" "no")
    (fun _ => RunOutcome.raisesError) 0 (by decide)

/-- C1 counterexample: in the run whose connect initiation raises, the offline
presence notification and the disconnect notification execute zero times (the
source's connect-failure handler at lines 756-780 unhooks and releases but
never reaches the finally block at lines 840-873), refuting the claim that all
four cleanup actions execute exactly once regardless of which stage failed. -/
theorem c1_claim_counterexample :
    (serve_once true false BodyOutcome.completes).1.count SEvent.offlinePresence = 0 ∧
    (serve_once true false BodyOutcome.completes).1.count SEvent.disconnectCb = 0 ∧
    ¬ (serve_once true false BodyOutcome.completes).1.count SEvent.offlinePresence = 1 ∧
    (serve_once true false BodyOutcome.completes).2 = true := by
  decide

/-- C1 (amended): every `serve_once` run unhooks the callbacks and releases the
transport handle exactly once; runs that get past connect initiation also emit
the offline presence notification and invoke the disconnect notification
exactly once each, for every body outcome; a run whose connect initiation
raises re-raises with those two notifications skipped. -/
theorem c1_cleanup_amended (connect_raises heartbeat_enabled : Bool) (outcome : BodyOutcome) :
    (serve_once connect_raises heartbeat_enabled outcome).1.count SEvent.unhookCallbacks = 1 ∧
    (serve_once connect_raises heartbeat_enabled outcome).1.count SEvent.releaseHandle = 1 ∧
    (serve_once connect_raises heartbeat_enabled outcome).1.count SEvent.offlinePresence =
      (if connect_raises then 0 else 1) ∧
    (serve_once connect_raises heartbeat_enabled outcome).1.count SEvent.disconnectCb =
      (if connect_raises then 0 else 1) ∧
    (serve_once connect_raises heartbeat_enabled outcome).2 =
      (connect_raises || bodyRaises outcome) := by
  cases connect_raises <;> cases heartbeat_enabled <;> cases outcome <;> decide

/-- A config source whose config object provides all three required settings,
with a bytes password. -/
def fullObjSrc : ConfigSource :=
  ⟨fun _ => none,
   some (fun name =>
     if name = "SERVER_URI" then some (PyValue.vStr "ws://127.0.0.1:3000/websocket")
     else if name = "LOGIN_USERNAME" then some (PyValue.vStr "errbot")
     else if name = "LOGIN_PASSWORD" then some (PyValue.vBytes [1, 2, 3])
     else none)⟩

/-- C8: if any of `SERVER_URI`, `LOGIN_USERNAME` or `LOGIN_PASSWORD` resolves
to None through `_get_config`, the constructor raises an error (the
constructor performs no transport operation: the meteor client only exists
from `serve_once` on); when construction succeeds, the stored login password
is a byte sequence — the configured bytes unchanged, or the UTF-8 encoding of
a configured string. -/
theorem c8_required_config (src : ConfigSource) :
    (get_config src "SERVER_URI" PyValue.vNone = PyValue.vNone →
      ∃ e, rocketchat_init src = Except.error e) ∧
    (get_config src "LOGIN_USERNAME" PyValue.vNone = PyValue.vNone →
      ∃ e, rocketchat_init src = Except.error e) ∧
    (get_config src "LOGIN_PASSWORD" PyValue.vNone = PyValue.vNone →
      ∃ e, rocketchat_init src = Except.error e) ∧
    (∀ r, rocketchat_init src = Except.ok r →
      (∀ pw, get_config src "LOGIN_PASSWORD" PyValue.vNone = PyValue.vStr pw →
        r.login_password = strToBytes pw) ∧
      (∀ bs, get_config src "LOGIN_PASSWORD" PyValue.vNone = PyValue.vBytes bs →
        r.login_password = bs)) := by
  by_cases h1 : get_config src "SERVER_URI" PyValue.vNone = PyValue.vNone
  · have he : rocketchat_init src = Except.error "Missing config `SERVER_URI`." := by
      rw [rocketchat_init, if_pos h1]
    refine ⟨fun _ => ⟨_, he⟩, fun _ => ⟨_, he⟩, fun _ => ⟨_, he⟩, ?_⟩
    intro r hr
    rw [he] at hr
    cases hr
  · by_cases h2 : get_config src "LOGIN_USERNAME" PyValue.vNone = PyValue.vNone
    · have he : rocketchat_init src = Except.error "Missing config `LOGIN_USERNAME`." := by
        rw [rocketchat_init, if_neg h1, if_pos h2]
      refine ⟨fun hx => absurd hx h1, fun _ => ⟨_, he⟩, fun _ => ⟨_, he⟩, ?_⟩
      intro r hr
      rw [he] at hr
      cases hr
    · refine ⟨fun hx => absurd hx h1, fun hx => absurd hx h2, ?_, ?_⟩
      · intro h3
        refine ⟨"Missing config `LOGIN_PASSWORD`.", ?_⟩
        rw [rocketchat_init, if_neg h1, if_neg h2, h3]
      · intro r hr
        rw [rocketchat_init, if_neg h1, if_neg h2] at hr
        constructor
        · intro pw hpw
          rw [hpw] at hr
          cases hr
          rfl
        · intro bs hbs
          rw [hbs] at hr
          cases hr
          rfl

/-- Witness for C8: a fully-absent configuration errors, and a configuration
whose password is the bytes [1, 2, 3] stores exactly those bytes. -/
theorem c8_required_config_witness :
    (∃ e, rocketchat_init emptySrc = Except.error e) ∧
    (InitOk.mk (PyValue.vStr "ws://127.0.0.1:3000/websocket") (PyValue.vStr "errbot")
      [1, 2, 3]).login_password = [1, 2, 3] :=
  ⟨(c8_required_config emptySrc).1 rfl,
   ((c8_required_config fullObjSrc).2.2.2
      (InitOk.mk (PyValue.vStr "ws://127.0.0.1:3000/websocket") (PyValue.vStr "errbot")
        [1, 2, 3]) rfl).2 [1, 2, 3] rfl⟩

/-- C6: a data-change event on a collection other than `stream-room-messages`
(or with a non-list `args`) dispatches zero messages; an event whose records
all carry the bot's own username dispatches zero messages; a record with a
non-empty body whose sender is not the bot dispatches exactly one message
carrying that body, a sender identifier built from the sender username, the
bot as recipient, and the raw record in the extras under `msg_info`; and
dispatch is per-record (the dispatched list distributes over concatenation of
the records). -/
theorem c6_inbound_filtering (login : String) (bot : RocketChatUser) (c : String)
    (args : Option (List MsgInfo)) (l l2 : List MsgInfo) (mi : MsgInfo) (m : String) :
    (¬ c = "stream-room-messages" → meteor_changed_callback login bot c args = []) ∧
    ((∀ x ∈ l, x.username = login) →
      meteor_changed_callback login bot "stream-room-messages" (some l) = []) ∧
    (mi.msg = some m → ¬ m = "" → ¬ mi.username = login →
      meteor_changed_callback login bot "stream-room-messages" (some [mi]) =
        [BMessage.mk m (build_identifier mi.username) bot (some mi) none]) ∧
    (meteor_changed_callback login bot "stream-room-messages" (some (l ++ l2)) =
      meteor_changed_callback login bot "stream-room-messages" (some l) ++
        meteor_changed_callback login bot "stream-room-messages" (some l2)) ∧
    meteor_changed_callback login bot c none = [] := by
  refine ⟨?_, ?_, ?_, ?_, ?_⟩
  · intro h
    simp [meteor_changed_callback, h]
  · intro h
    simp only [meteor_changed_callback, if_pos rfl]
    rw [if_pos trivial, List.filterMap_eq_nil_iff]
    intro x hx
    cases hm : x.msg with
    | none => simp
    | some mm => simp [h x hx]
  · intro h1 _h2 h3
    simp [meteor_changed_callback, h1, h3]
  · simp [meteor_changed_callback, List.filterMap_append]
  · by_cases hc : c = "stream-room-messages" <;> simp [meteor_changed_callback, hc]

/-- Witness for C6: a concrete non-bot record dispatches its single message; a
concrete bot-authored record dispatches nothing. -/
theorem c6_inbound_filtering_witness :
    meteor_changed_callback "errbot" (build_identifier "errbot") "stream-room-messages"
        (some [⟨some "hello", "alice", "R1"⟩]) =
      [BMessage.mk "hello" (build_identifier "alice") (build_identifier "errbot")
        (some ⟨some "hello", "alice", "R1"⟩) none] ∧
    meteor_changed_callback "errbot" (build_identifier "errbot") "stream-room-messages"
        (some [⟨some "hi", "errbot", "R1"⟩]) = [] :=
  ⟨(c6_inbound_filtering "errbot" (build_identifier "errbot") "x" none [] []
      ⟨some "hello", "alice", "R1"⟩ "hello").2.2.1 rfl (by decide) (by decide),
   (c6_inbound_filtering "errbot" (build_identifier "errbot") "x" none
      [⟨some "hi", "errbot", "R1"⟩] [] ⟨some "hi", "errbot", "R1"⟩ "hi").2.1 (by decide)⟩
